import Mathlib

/-!
# Verification of the PDF submission checker (`service/pdf_checker.py`)

A shallow embedding of the checker's content-page classifier and issue
detectors.  Python strings are modelled as Lean `String`s (lists of
characters), the compiled regular expressions are modelled by an explicit
regex AST together with an executable backtracking matcher whose
preference order (leftmost start, left alternative first, greedy
repetition) matches the semantics of Python's `re` module on the pattern
constructs that occur in the source.  Machine floating point occurs only
in the comparison `reference_like_lines / total_substantial_lines > 0.7`,
which is modelled exactly by the rational comparison
`10 * reference_like_lines > 7 * total_substantial_lines` (the two agree
for every ratio of natural numbers whose denominator is below `10^15`,
far above any realistic page line count).
-/

namespace PdfChecker

/-- The characters stripped by Python's `str.strip()` and matched by the
regex class `\s` (restricted to ASCII, which covers all inputs considered
here). -/
def isPySpace (c : Char) : Bool :=
  c = ' ' || c = '\t' || c = '\n' || c = '\r' || c = '\x0b' || c = '\x0c'

/-- ASCII letter. -/
def isAsciiLetter (c : Char) : Bool :=
  ('a' ≤ c && c ≤ 'z') || ('A' ≤ c && c ≤ 'Z')

/-- ASCII uppercase letter, the class `[A-Z]` of a case-sensitive pattern. -/
def isAsciiUpper (c : Char) : Bool :=
  'A' ≤ c && c ≤ 'Z'

/-- ASCII lowercasing, the effect of Python's `str.lower()` on ASCII text. -/
def lowerChar (c : Char) : Char :=
  if 'A' ≤ c && c ≤ 'Z' then Char.ofNat (c.toNat + 32) else c

/-- `str.lower()` applied to a whole string. -/
def lowerStr (s : String) : String :=
  ⟨s.data.map lowerChar⟩

/-- Word characters for the purposes of the regex `\b` boundary. -/
def isWordChar (c : Char) : Bool :=
  isAsciiLetter c || c.isDigit || c = '_'

/-- `str.strip()` on a character list. -/
def pyStripL (cs : List Char) : List Char :=
  ((cs.dropWhile isPySpace).reverse.dropWhile isPySpace).reverse

/-- `str.strip()`. -/
def pyStrip (s : String) : String :=
  ⟨pyStripL s.data⟩

/-- Helper for `splitNl`: the accumulator holds the current segment
reversed. -/
def splitNlAux : List Char → List Char → List String
  | [], cur => [⟨cur.reverse⟩]
  | '\n' :: cs, cur => (⟨cur.reverse⟩ : String) :: splitNlAux cs []
  | c :: cs, cur => splitNlAux cs (c :: cur)

/-- Python's `text.split('\n')`. -/
def splitNl (s : String) : List String :=
  splitNlAux s.data []

/-- Number of whitespace-separated words, i.e. `len(s.split())` in Python.
The boolean argument records whether the previous character belonged to a
word. -/
def countWordsAux : List Char → Bool → Nat
  | [], _ => 0
  | c :: cs, inWord =>
    if isPySpace c then countWordsAux cs false
    else (if inWord then 0 else 1) + countWordsAux cs true

/-- `len(s.split())` in Python. -/
def wordCount (s : String) : Nat :=
  countWordsAux s.data false

/-- Boolean prefix test on character lists. -/
def isPrefixL : List Char → List Char → Bool
  | [], _ => true
  | _ :: _, [] => false
  | a :: as, b :: bs => a = b && isPrefixL as bs

/-- Boolean substring test: does `needle` occur inside `hay`
(Python's `needle in hay`)? -/
def containsSubL (needle : List Char) : List Char → Bool
  | [] => isPrefixL needle []
  | c :: rest => isPrefixL needle (c :: rest) || containsSubL needle rest

/-- Boolean substring test on strings. -/
def containsSubB (hay needle : String) : Bool :=
  containsSubL needle.data hay.data

/-- Python slice `text[a:b]` on character indices (both bounds already
clamped to `[0, len]` by the callers, as in the source). -/
def sliceStr (s : String) (a b : Nat) : String :=
  ⟨(s.data.drop a).take (b - a)⟩

/-- `str.replace('\n', ' ')`. -/
def replaceNl (s : String) : String :=
  ⟨s.data.map (fun c => if c = '\n' then ' ' else c)⟩

/-! ## A small regex engine

The AST mirrors the pattern constructs used in `pdf_checker.py`:
character classes, concatenation, alternation, Kleene star, the anchors
`^` and `$` (with `re.MULTILINE` semantics, which coincide with the plain
semantics on strings without newlines — every anchored pattern in the
source is either applied line by line or compiled with `re.MULTILINE`)
and the word boundary `\b`. -/

inductive RE where
  | eps : RE
  | cls : (Char → Bool) → RE
  | cat : RE → RE → RE
  | alt : RE → RE → RE
  | star : RE → RE
  | bol : RE
  | eol : RE
  | wb : RE

/-- The character just before position `i`, if any. -/
def prevChar (s : List Char) (i : Nat) : Option Char :=
  match i with
  | 0 => none
  | j + 1 => s[j]?

/-- Does `^` match at position `i` (`re.MULTILINE` semantics)? -/
def atBol (s : List Char) (i : Nat) : Bool :=
  match prevChar s i with
  | none => true
  | some c => c = '\n'

/-- Does `$` match at position `i` (`re.MULTILINE` semantics)? -/
def atEol (s : List Char) (i : Nat) : Bool :=
  match s[i]? with
  | none => true
  | some c => c = '\n'

/-- Does `\b` match at position `i`? -/
def atWb (s : List Char) (i : Nat) : Bool :=
  let before := match prevChar s i with
    | none => false
    | some c => isWordChar c
  let after := match s[i]? with
    | none => false
    | some c => isWordChar c
  before != after

/-- All end positions of a greedy repetition starting at `i`, most
iterations first (Python's greedy `*`).  `step` produces the end
positions of one iteration of the body; only strictly advancing
iterations are taken, so `s.length + 1` units of fuel are always
sufficient. -/
def starEnds (step : Nat → List Nat) : Nat → Nat → List Nat
  | 0, i => [i]
  | fuel + 1, i =>
    (((step i).filter (fun j => i < j)).map (fun j => starEnds step fuel j)).flatten ++ [i]

/-- All end positions of a match of `r` starting at position `i` of `s`,
in the preference order of a backtracking regex engine: left alternative
first, greedy repetition. -/
def matchEnds (s : List Char) : RE → Nat → List Nat
  | .eps, i => [i]
  | .cls p, i =>
    match s[i]? with
    | some c => if p c then [i + 1] else []
    | none => []
  | .cat r1 r2, i => ((matchEnds s r1 i).map (fun j => matchEnds s r2 j)).flatten
  | .alt r1 r2, i => matchEnds s r1 i ++ matchEnds s r2 i
  | .star r, i => starEnds (matchEnds s r) (s.length + 1) i
  | .bol, i => if atBol s i then [i] else []
  | .eol, i => if atEol s i then [i] else []
  | .wb, i => if atWb s i then [i] else []

/-- `re.search` as a boolean: does `r` match starting at some position? -/
def searchB (s : List Char) (r : RE) : Bool :=
  (List.range (s.length + 1)).any (fun i => !(matchEnds s r i).isEmpty)

/-- `re.match` as a boolean: does `r` match starting at position 0? -/
def matchB (s : List Char) (r : RE) : Bool :=
  !(matchEnds s r 0).isEmpty

/-- Helper for `finditer`: scan from position `i`, emitting non-overlapping
`(start, end)` pairs, each match being the first one in backtracking
order (exactly the match object Python yields). -/
def finditerAux (s : List Char) (r : RE) : Nat → Nat → List (Nat × Nat)
  | 0, _ => []
  | fuel + 1, i =>
    if i ≤ s.length then
      match (matchEnds s r i).head? with
      | some e => (i, e) :: finditerAux s r fuel (if i < e then e else i + 1)
      | none => finditerAux s r fuel (i + 1)
    else []

/-- `re.finditer`: the list of `(start, end)` spans of the
non-overlapping matches of `r` in `s`, leftmost first. -/
def finditer (s : List Char) (r : RE) : List (Nat × Nat) :=
  finditerAux s r (s.length + 2) 0

/-! ### Pattern combinators -/

/-- Case-sensitive literal character. -/
def lchar (c : Char) : RE :=
  .cls (fun x => x = c)

/-- Case-insensitive literal character (for patterns compiled with
`re.IGNORECASE`). -/
def ichar (c : Char) : RE :=
  .cls (fun x => lowerChar x = lowerChar c)

/-- Concatenation of a list of regexes. -/
def rcat (rs : List RE) : RE :=
  rs.foldr RE.cat RE.eps

/-- Alternation of a list of regexes, left branch preferred. -/
def ralts : List RE → RE
  | [] => RE.cls (fun _ => false)
  | [r] => r
  | r :: rs => RE.alt r (ralts rs)

/-- Case-insensitive literal string. -/
def istr (w : String) : RE :=
  rcat (w.data.map ichar)

/-- Case-sensitive literal string. -/
def sstr (w : String) : RE :=
  rcat (w.data.map lchar)

/-- The class `\d`. -/
def digitC : RE :=
  .cls Char.isDigit

/-- The class `\s`. -/
def spaceC : RE :=
  .cls isPySpace

/-- `r?`, greedy. -/
def optR (r : RE) : RE :=
  .alt r .eps

/-- `r+`, greedy. -/
def plusR (r : RE) : RE :=
  .cat r (.star r)

/-- At most `n` copies of `r`, greedy. -/
def repAtMost : RE → Nat → RE
  | _, 0 => .eps
  | r, n + 1 => optR (.cat r (repAtMost r n))

/-- `r{lo,hi}`, greedy. -/
def repRange (r : RE) (lo hi : Nat) : RE :=
  .cat (rcat (List.replicate lo r)) (repAtMost r (hi - lo))

/-- `r{n,}`, greedy. -/
def repAtLeast (r : RE) (n : Nat) : RE :=
  .cat (rcat (List.replicate n r)) (.star r)

/-- `\s*`. -/
def starS : RE :=
  .star spaceC

/-- `\s+`. -/
def plusS : RE :=
  plusR spaceC

/-- Literal `.` character. -/
def dotL : RE :=
  lchar '.'

/-- The class `.` (any character except a newline). -/
def anyC : RE :=
  .cls (fun c => !(c = '\n'))

/-! ## The compiled section patterns

`PDFChecker.section_patterns` is one alternation compiled with
`re.IGNORECASE | re.MULTILINE`; each branch below is one alternative, in
source order.  Under `re.IGNORECASE` the classes `[A-Z]` and `[a-z]`
both match any ASCII letter. -/

/-- `limitations?` (case-insensitive). -/
def limitWord : RE :=
  .cat (istr ("limitation")) (optR (ichar 's'))

/-- `ethical?` — the literal `ethica` followed by an optional `l`. -/
def ethicaWord : RE :=
  .cat (istr ("ethica")) (optR (ichar 'l'))

/-- `considerations?`. -/
def considWord : RE :=
  .cat (istr ("consideration")) (optR (ichar 's'))

/-- `ethicalconsiderations?`. -/
def ethconsWord : RE :=
  .cat (istr ("ethicalconsideration")) (optR (ichar 's'))

/-- `ethics?`. -/
def ethicsWord : RE :=
  .cat (istr ("ethic")) (optR (ichar 's'))

/-- `references?`. -/
def refWord : RE :=
  .cat (istr ("reference")) (optR (ichar 's'))

/-- The class `[ivxlcdm]` under `re.IGNORECASE`. -/
def romanC : RE :=
  .cls (fun c =>
    let l := lowerChar c
    l = 'i' || l = 'v' || l = 'x' || l = 'l' || l = 'c' || l = 'd' || l = 'm')

/-- Any ASCII letter: `[a-z]` or `[A-Z]` under `re.IGNORECASE`. -/
def letterC : RE :=
  .cls isAsciiLetter

/-- `^\s*\d*\.?\s*limitations?\s*$` -/
def patL1 : RE := rcat [.bol, starS, .star digitC, optR dotL, starS, limitWord, starS, .eol]
/-- `^\s*[a-z]\)?\s*limitations?\s*$` -/
def patL2 : RE := rcat [.bol, starS, letterC, optR (lchar ')'), starS, limitWord, starS, .eol]
/-- `^\s*[ivxlcdm]+\.?\s*limitations?\s*$` -/
def patL3 : RE := rcat [.bol, starS, plusR romanC, optR dotL, starS, limitWord, starS, .eol]
/-- `^\s*\d{1,3}\.\s*limitations?\s*$` -/
def patL4 : RE := rcat [.bol, starS, repRange digitC 1 3, dotL, starS, limitWord, starS, .eol]
/-- `^\s*\d{1,3}\s+limitations?\s*$` -/
def patL5 : RE := rcat [.bol, starS, repRange digitC 1 3, plusS, limitWord, starS, .eol]
/-- `^\s*limitations?\s+` -/
def patL6 : RE := rcat [.bol, starS, limitWord, plusS]
/-- `\b\d{1,4}\s+limitations?\b` -/
def patL7 : RE := rcat [.wb, repRange digitC 1 4, plusS, limitWord, .wb]
/-- `\blimitations?\s*$` -/
def patL8 : RE := rcat [.wb, limitWord, starS, .eol]

/-- `^\s*\d*\.?\s*ethical?\s+considerations?\s*$` -/
def patE1 : RE := rcat [.bol, starS, .star digitC, optR dotL, starS, ethicaWord, plusS, considWord, starS, .eol]
/-- `^\s*\d*\.?\s*ethicalconsiderations?\s*$` -/
def patE2 : RE := rcat [.bol, starS, .star digitC, optR dotL, starS, ethconsWord, starS, .eol]
/-- `^\s*\d{1,4}\s+ethicalconsiderations?\s+` -/
def patE3 : RE := rcat [.bol, starS, repRange digitC 1 4, plusS, ethconsWord, plusS]
/-- `^\s*\d*\.?\s*ethics?\s*$` -/
def patE4 : RE := rcat [.bol, starS, .star digitC, optR dotL, starS, ethicsWord, starS, .eol]
/-- `^\s*\d{1,3}\.\s*ethical?\s+considerations?\s*$` -/
def patE5 : RE := rcat [.bol, starS, repRange digitC 1 3, dotL, starS, ethicaWord, plusS, considWord, starS, .eol]
/-- `^\s*\d{1,3}\s+ethical?\s+considerations?\s*$` -/
def patE6 : RE := rcat [.bol, starS, repRange digitC 1 3, plusS, ethicaWord, plusS, considWord, starS, .eol]
/-- `\b\d{1,4}\s+ethical?\s+considerations?\b` -/
def patE7 : RE := rcat [.wb, repRange digitC 1 4, plusS, ethicaWord, plusS, considWord, .wb]
/-- `\bethical?\s+considerations?\s*$` -/
def patE8 : RE := rcat [.wb, ethicaWord, plusS, considWord, starS, .eol]
/-- `\bethicalconsiderations?\s*$` -/
def patE9 : RE := rcat [.wb, ethconsWord, starS, .eol]
/-- `\bethics?\s*$` -/
def patE10 : RE := rcat [.wb, ethicsWord, starS, .eol]

/-- `^\s*\d*\.?\s*references?\s*$` -/
def patR1 : RE := rcat [.bol, starS, .star digitC, optR dotL, starS, refWord, starS, .eol]
/-- `^\s*\d*\.?\s*bibliography\s*$` -/
def patR2 : RE := rcat [.bol, starS, .star digitC, optR dotL, starS, istr ("bibliography"), starS, .eol]
/-- `^\s*\d{1,3}\.\s*references?\s*$` -/
def patR3 : RE := rcat [.bol, starS, repRange digitC 1 3, dotL, starS, refWord, starS, .eol]
/-- `^\s*\d{1,3}\s+references?\s*$` -/
def patR4 : RE := rcat [.bol, starS, repRange digitC 1 3, plusS, refWord, starS, .eol]
/-- `\b\d{1,4}\s+references?\b` -/
def patR5 : RE := rcat [.wb, repRange digitC 1 4, plusS, refWord, .wb]
/-- `\breferences?\s+\d{3,4}\s*$` -/
def patR6 : RE := rcat [.wb, refWord, plusS, repRange digitC 3 4, starS, .eol]
/-- `\breferences?\s*$` -/
def patR7 : RE := rcat [.wb, refWord, starS, .eol]
/-- `^\s*\[1\]` -/
def patR8 : RE := rcat [.bol, starS, lchar '[', lchar '1', lchar ']']
/-- `^\s*1\.\s+[A-Z]` — under `re.IGNORECASE` the final class matches any
letter. -/
def patR9 : RE := rcat [.bol, starS, lchar '1', dotL, plusS, letterC]

/-- `^\s*\d*\.?\s*appendix\s*[a-z]?\s*$` -/
def patA1 : RE := rcat [.bol, starS, .star digitC, optR dotL, starS, istr ("appendix"), starS, optR letterC, starS, .eol]
/-- `^\s*\d*\.?\s*appendices\s*$` -/
def patA2 : RE := rcat [.bol, starS, .star digitC, optR dotL, starS, istr ("appendices"), starS, .eol]
/-- `^\s*\d{1,3}\.\s*appendix\s*[a-z]?\s*$` -/
def patA3 : RE := rcat [.bol, starS, repRange digitC 1 3, dotL, starS, istr ("appendix"), starS, optR letterC, starS, .eol]
/-- `^\s*\d{1,3}\s+appendix\s*[a-z]?\s*$` -/
def patA4 : RE := rcat [.bol, starS, repRange digitC 1 3, plusS, istr ("appendix"), starS, optR letterC, starS, .eol]
/-- `^\s*appendix\s*[a-z]?\s*:` -/
def patA5 : RE := rcat [.bol, starS, istr ("appendix"), starS, optR letterC, starS, lchar ':']
/-- `\bsupplementary\s+materials?\s*$` -/
def patA6 : RE := rcat [.wb, istr ("supplementary"), plusS, .cat (istr ("material")) (optR (ichar 's')), starS, .eol]
/-- `\badditional\s+results\s*$` -/
def patA7 : RE := rcat [.wb, istr ("additional"), plusS, istr ("results"), starS, .eol]

/-- `PDFChecker.section_patterns`: the full alternation, in source
order. -/
def section_patterns : RE :=
  ralts [patL1, patL2, patL3, patL4, patL5, patL6, patL7, patL8,
         patE1, patE2, patE3, patE4, patE5, patE6, patE7, patE8, patE9, patE10,
         patR1, patR2, patR3, patR4, patR5, patR6, patR7, patR8, patR9,
         patA1, patA2, patA3, patA4, patA5, patA6, patA7]

/-- `self.section_patterns.search(line)` as a boolean. -/
def sectionSearchLine (line : String) : Bool :=
  searchB line.data section_patterns

/-! ## Data model -/

/-- `PaperType`. -/
inductive PaperType where
  | SHORT
  | LONG
deriving DecidableEq

/-- `IssueType`. -/
inductive IssueType where
  | page_limit
  | missing_limitations
  | anonymization
  | broken_references
  | ethical_considerations
deriving DecidableEq

/-- `Issue`: an issue found in a PDF. -/
structure Issue where
  issue_type : IssueType
  severity : String
  message : String
  details : Option String := none
deriving DecidableEq

/-- `PDFCheckResult`: results of checking a PDF file. -/
structure PDFCheckResult where
  file_path : String
  paper_type : PaperType
  total_pages : Nat
  content_pages : Nat
  issues : List Issue
deriving DecidableEq

/-! ## The content-page classifier -/

/-- `[line.strip() for line in page_text.split('\n') if line.strip()]`. -/
def splitPageLines (page_text : String) : List String :=
  ((splitNl page_text).map pyStrip).filter (fun l => !(l = ""))

/-- `re.match(r'^\s*1\.\s+[A-Z]', line)` — the extra validation test in
`_find_main_content_end`, compiled WITHOUT `re.IGNORECASE`, so `[A-Z]`
matches uppercase letters only. -/
def numberedCandidateB (line : String) : Bool :=
  matchB line.data (rcat [starS, lchar '1', dotL, plusS, .cls isAsciiUpper])

/-- `re.match(r'^\s*\d+\.\s+[A-Z]', line)` in
`_looks_like_reference_section` (case-sensitive). -/
def numberedRefLineB (line : String) : Bool :=
  matchB line.data (rcat [starS, plusR digitC, dotL, plusS, .cls isAsciiUpper])

/-- `re.match(r'^\s*\[\d+\]', line)` in `_looks_like_reference_section`. -/
def bracketRefLineB (line : String) : Bool :=
  matchB line.data (rcat [starS, lchar '[', plusR digitC, lchar ']'])

/-- The counting loop of `_looks_like_reference_section`: each line is
stripped again, then counted once if it matches the numbered-reference
pattern, else once if it matches the bracket-reference pattern. -/
def refLikeCountLoop : List String → Nat
  | [] => 0
  | l :: ls =>
    (if numberedRefLineB (pyStrip l) then 1
     else if bracketRefLineB (pyStrip l) then 1
     else 0) + refLikeCountLoop ls

/-- `_looks_like_reference_section(lines, start_idx)`: the Python loop
runs over `range(start_idx, min(start_idx + 5, len(lines)))`, i.e. over
`(lines.drop start).take 5` — starting AT the candidate line — and
requires at least 2 reference-like lines. -/
def looks_like_reference_section (lines : List String) (start : Nat) : Bool :=
  decide (2 ≤ refLikeCountLoop ((lines.drop start).take 5))

/-- `sum(1 for l in lines if len(l.split()) > 3)`: the number of lines
with more than 3 words. -/
def substantialCount (ls : List String) : Nat :=
  ls.countP (fun l => decide (3 < wordCount l))

/-- The mid-page test of `_find_main_content_end`:
`line_idx > 10 or (line_idx > 0 and sum(... lines[:line_idx] ...) > 5)`. -/
def isMidPageB (lines : List String) (line_idx : Nat) : Bool :=
  decide (10 < line_idx) ||
    (decide (0 < line_idx) && decide (5 < substantialCount (lines.take line_idx)))

/-- The per-page line scan of `_find_main_content_end`: the first
argument is the full line list of the page (used for look-ahead and the
mid-page test), the second the remaining lines, the third the current
line index.  A line matching `section_patterns` is accepted immediately
unless it is a numbered-reference candidate, in which case it is accepted
only if `_looks_like_reference_section` corroborates it; otherwise the
scan continues. -/
def findBoundaryAux (lines : List String) : List String → Nat → Option Nat
  | [], _ => none
  | l :: rest, idx =>
    if sectionSearchLine l then
      if numberedCandidateB l then
        if looks_like_reference_section lines idx then some idx
        else findBoundaryAux lines rest (idx + 1)
      else some idx
    else findBoundaryAux lines rest (idx + 1)

/-- Index of the first accepted section-boundary line on a page. -/
def findBoundaryIdx (lines : List String) : Option Nat :=
  findBoundaryAux lines lines 0

/-- Page loop of `_find_main_content_end`. -/
def find_main_content_end_aux : Nat → List String → Option (Nat × Bool)
  | _, [] => none
  | page_idx, page_text :: rest =>
    match findBoundaryIdx (splitPageLines page_text) with
    | some line_idx => some (page_idx, isMidPageB (splitPageLines page_text) line_idx)
    | none => find_main_content_end_aux (page_idx + 1) rest

/-- `_find_main_content_end(page_texts)`: `(page_index, is_mid_page)` of
the first accepted boundary, or `none`. -/
def find_main_content_end (page_texts : List String) : Option (Nat × Bool) :=
  find_main_content_end_aux 0 page_texts

/-- `^\s*\[\d+\]` (case-sensitive), first reference shape of
`_page_is_excluded_content`. -/
def refShape1 : RE := rcat [.bol, starS, lchar '[', plusR digitC, lchar ']']
/-- `^\s*\d+\.\s+[A-Z]` (case-sensitive). -/
def refShape2 : RE := rcat [.bol, starS, plusR digitC, dotL, plusS, .cls isAsciiUpper]
/-- `[12]`, the leading digit of a year. -/
def yearLead : RE := .cls (fun c => c = '1' || c = '2')
/-- `[^.]`, any character other than a dot. -/
def nonDotC : RE := .cls (fun c => !(c = '.'))
/-- `\([12]\d{3}\)`: a parenthesised year. -/
def yearParen : RE := rcat [lchar '(', yearLead, digitC, digitC, digitC, lchar ')']
/-- `^\s*[A-Z][^.]*\.\s*\([12]\d{3}\)` — "Author (year)". -/
def refShape3 : RE :=
  rcat [.bol, starS, .cls isAsciiUpper, .star nonDotC, dotL, starS, yearParen]
/-- `^\s*[A-Z][^.]*\.\s+[A-Z][^.]*\.\s+\([12]\d{3}\)` — "Author. Title. (year)". -/
def refShape4 : RE :=
  rcat [.bol, starS, .cls isAsciiUpper, .star nonDotC, dotL, plusS,
        .cls isAsciiUpper, .star nonDotC, dotL, plusS, yearParen]

/-- The reference-citation test applied to one substantial line in
`_page_is_excluded_content` (four `re.search` calls, case-sensitive). -/
def refCitationLineB (line : String) : Bool :=
  searchB line.data refShape1 || searchB line.data refShape2 ||
  searchB line.data refShape3 || searchB line.data refShape4

/-- The counting loop of `_page_is_excluded_content`: pairs
`(reference_like_lines, total_substantial_lines)`; lines with fewer than
3 words are skipped. -/
def refStats : List String → Nat × Nat
  | [] => (0, 0)
  | l :: ls =>
    let rt := refStats ls
    if wordCount l < 3 then rt
    else if refCitationLineB l then (rt.1 + 1, rt.2 + 1)
    else (rt.1, rt.2 + 1)

/-- `\bappendix\b` on the lowercased page text. -/
def appInd1 : RE := rcat [.wb, sstr ("appendix"), .wb]
/-- `\bsupplementary\b`. -/
def appInd2 : RE := rcat [.wb, sstr ("supplementary"), .wb]
/-- `\badditional\s+results\b`. -/
def appInd3 : RE := rcat [.wb, sstr ("additional"), plusS, sstr ("results"), .wb]
/-- `\bdetailed\s+proofs\b`. -/
def appInd4 : RE := rcat [.wb, sstr ("detailed"), plusS, sstr ("proofs"), .wb]

/-- `sum(1 for pattern in appendix_indicators if re.search(pattern,
text_lower))`. -/
def appendixMatchCount (page_text : String) : Nat :=
  ([appInd1, appInd2, appInd3, appInd4].filter
    (fun p => searchB (lowerStr page_text).data p)).length

/-- `_page_is_excluded_content(page_text, page_idx)`.  The `page_idx`
argument is kept for faithfulness but, as in the source, is unused.  The
float comparison `ref / total > 0.7` is modelled by
`10 * ref > 7 * total` (see the module docstring). -/
def page_is_excluded_content (page_text : String) (_page_idx : Nat) : Bool :=
  let lines := splitPageLines page_text
  if lines.isEmpty then true
  else
    let rt := refStats lines
    if 0 < rt.2 ∧ 7 * rt.2 < 10 * rt.1 then true
    else if 2 ≤ appendixMatchCount page_text then true
    else false

/-- `_calculate_content_pages(page_texts)`. -/
def calculate_content_pages (page_texts : List String) : Nat :=
  match page_texts with
  | [] => 0
  | _ :: _ =>
    match find_main_content_end page_texts with
    | some (page_idx, true) => page_idx + 1
    | some (page_idx, false) => page_idx
    | none =>
      max 1 (page_texts.enum.countP
        (fun pi => !(page_is_excluded_content pi.2 pi.1)))

/-! ## Issue detectors -/

/-- `_check_page_limits(content_pages, paper_type)`. -/
def check_page_limits (content_pages : Nat) (paper_type : PaperType) : List Issue :=
  let limit : Nat :=
    match paper_type with
    | .SHORT => 4
    | .LONG => 8
  let paper_desc : String :=
    match paper_type with
    | .SHORT => "short paper"
    | .LONG => "long paper"
  if limit < content_pages then
    [{ issue_type := .page_limit, severity := "error",
       message := "Paper exceeds page limit for " ++ paper_desc,
       details := some ("Found " ++ toString content_pages ++
         " content pages, limit is " ++ toString limit ++ " pages") }]
  else if content_pages = limit then
    [{ issue_type := .page_limit, severity := "info",
       message := "Paper is at the page limit for " ++ paper_desc,
       details := some (toString content_pages ++ " content pages (limit: " ++
         toString limit ++ ")") }]
  else []

/-- The issue appended when no limitations section is found. -/
def missing_limitations_issue : Issue :=
  { issue_type := .missing_limitations, severity := "error",
    message := "Missing required 'Limitations' section",
    details := some ("Papers must include a section discussing limitations") }

/-- The per-line test of `_check_limitations_section`:
`section_patterns.search(line_clean) and 'limitation' in
line_clean.lower()` where `line_clean = line.strip()`. -/
def limitationsLineHit (line : String) : Bool :=
  sectionSearchLine (pyStrip line) &&
    containsSubB (lowerStr (pyStrip line)) ("limitation")

/-- The line loop of `_check_limitations_section`: return `[]` on the
first hit, otherwise one missing-limitations issue. -/
def checkLimitationsAux : List String → List Issue
  | [] => [missing_limitations_issue]
  | l :: ls => if limitationsLineHit l then [] else checkLimitationsAux ls

/-- `_check_limitations_section(text)`. -/
def check_limitations_section (text : String) : List Issue :=
  checkLimitationsAux (splitNl text)

/-- The context-plus-group details string shared by the anonymization and
broken-reference detectors: the matched group followed by the context
`text[max(0, start - ctx) : min(len(text), end + ctx)]` with newlines
replaced by spaces and the result stripped, rendered in the
"Found: ... in context: ..." format of the source. -/
def matchDetails (text : String) (st en ctx : Nat) : String :=
  "Found: '" ++ sliceStr text st en ++ "' in context: '..." ++
    pyStrip (replaceNl (sliceStr text (st - ctx) (min text.length (en + ctx)))) ++
    "...'"

/-- `\b[A-Z][a-z]+ University\b` — compiled case-insensitively in
`_check_anonymization` (the `re.IGNORECASE` flag is passed at the call
site), so the capitalization expressed by the classes is not enforced. -/
def anonPat1 : RE := rcat [.wb, letterC, plusR letterC, lchar ' ', istr ("university"), .wb]
/-- `\b[A-Z][a-z]+ Institute\b` (case-insensitive at the call site). -/
def anonPat2 : RE := rcat [.wb, letterC, plusR letterC, lchar ' ', istr ("institute"), .wb]
/-- `\b[A-Z][a-z]+ College\b` (case-insensitive at the call site). -/
def anonPat3 : RE := rcat [.wb, letterC, plusR letterC, lchar ' ', istr ("college"), .wb]
/-- The class `[a-zA-Z0-9.-]` used in the email patterns. -/
def emailC : RE := .cls (fun c => isAsciiLetter c || c.isDigit || c = '.' || c = '-')
/-- `@[a-zA-Z0-9.-]+\.[a-zA-Z]{2,}` — email addresses. -/
def anonPat4 : RE := rcat [lchar '@', plusR emailC, dotL, repAtLeast letterC 2]
/-- `\b(?:Author|Authors?):\s*[A-Z]` (case-insensitive at the call site). -/
def anonPat5 : RE :=
  rcat [.wb, .alt (istr ("author")) (.cat (istr ("author")) (optR (ichar 's'))),
        lchar ':', starS, letterC]
/-- `\b(?:Affiliation|Department):\s*[A-Z]` (case-insensitive at the call
site). -/
def anonPat6 : RE :=
  rcat [.wb, .alt (istr ("affiliation")) (istr ("department")),
        lchar ':', starS, letterC]
/-- `\{[a-z]+@[a-zA-Z0-9.-]+\.[a-zA-Z]{2,}\}` — LaTeX-style emails
(case-insensitive at the call site). -/
def anonPat7 : RE :=
  rcat [lchar '{', plusR letterC, lchar '@', plusR emailC, dotL,
        repAtLeast letterC 2, lchar '}']

/-- `self.anonymization_patterns`, in source order. -/
def anonymization_patterns : List RE :=
  [anonPat1, anonPat2, anonPat3, anonPat4, anonPat5, anonPat6, anonPat7]

/-- `_check_anonymization(text)`: every match of every pattern yields one
warning issue, in pattern order then text order. -/
def check_anonymization (text : String) : List Issue :=
  (anonymization_patterns.map (fun p =>
    (finditer text.data p).map (fun m =>
      { issue_type := IssueType.anonymization, severity := "warning",
        message := "Potential anonymization issue detected",
        details := some (matchDetails text m.1 m.2 50) }))).flatten

/-- `\?\?` — bare double question marks. -/
def brokenPat1 : RE := rcat [lchar '?', lchar '?']
/-- `\[.*\?\?.*\]` — double question marks inside brackets. -/
def brokenPat2 : RE :=
  rcat [lchar '[', .star anyC, lchar '?', lchar '?', .star anyC, lchar ']']
/-- `\(.*\?\?.*\)` — double question marks inside parentheses. -/
def brokenPat3 : RE :=
  rcat [lchar '(', .star anyC, lchar '?', lchar '?', .star anyC, lchar ')']

/-- The `broken_ref_patterns` list. -/
def broken_ref_patterns : List RE :=
  [brokenPat1, brokenPat2, brokenPat3]

/-- `_check_broken_references(text)`. -/
def check_broken_references (text : String) : List Issue :=
  (broken_ref_patterns.map (fun p =>
    (finditer text.data p).map (fun m =>
      { issue_type := IssueType.broken_references, severity := "warning",
        message := "Broken reference detected",
        details := some (matchDetails text m.1 m.2 50) }))).flatten

/-- The `ethical_patterns` list of `_check_ethical_considerations`: the
same ten shapes as the ethics branches of `section_patterns`, compiled
with `re.IGNORECASE | re.MULTILINE`. -/
def ethical_patterns : List RE :=
  [patE1, patE2, patE3, patE4, patE5, patE6, patE7, patE8, patE9, patE10]

/-- The ±30-character context snippet around an ethics match:
`text[max(0, start - 30) : min(len(text), end + 30)].replace('\n', ' ').strip()`. -/
def ethSnippet (text : String) (st en : Nat) : String :=
  pyStrip (replaceNl (sliceStr text (st - 30) (min text.length (en + 30))))

/-- The details string of the ethics issue: the group is additionally
stripped and the context window is ±30 characters. -/
def ethDetails (text : String) (st en : Nat) : String :=
  "Found: '" ++ pyStrip (sliceStr text st en) ++ "' in context: '..." ++
    ethSnippet text st en ++ "...'"

/-- The first match of the first pattern that matches at all — the loop
in `_check_ethical_considerations` breaks after the first reported
match and skips the remaining patterns via the `found_ethical` flag. -/
def ethicalFirstHit (text : String) : Option (Nat × Nat) :=
  ethical_patterns.findSome? (fun p => (finditer text.data p).head?)

/-- `_check_ethical_considerations(text)`. -/
def check_ethical_considerations (text : String) : List Issue :=
  match ethicalFirstHit text with
  | some (st, en) =>
    [{ issue_type := .ethical_considerations, severity := "warning",
       message := "Ethical considerations section found",
       details := some (ethDetails text st en) }]
  | none => []

/-! ## Orchestrator -/

/-- `full_text`: the page texts concatenated, each followed by a
newline. -/
def fullText (page_texts : List String) : String :=
  page_texts.foldl (fun acc p => acc ++ p ++ "\n") ""

/-- `check_pdf(file_path, paper_type)`.  Text extraction is an external
collaborator (`pdfplumber`); its outcome is passed in as an
`Except String (List String)`.  The Python `try`/`except` around the
whole extraction-and-analysis block is modelled by the `Except` match:
on failure the function returns (never raises) a result with zero page
counts and a single synthetic error issue. -/
def check_pdf (file_path : String) (paper_type : PaperType)
    (extraction : Except String (List String)) : PDFCheckResult :=
  match extraction with
  | .error e =>
    { file_path := file_path, paper_type := paper_type,
      total_pages := 0, content_pages := 0,
      issues := [{ issue_type := .page_limit, severity := "error",
                   message := "Failed to process PDF: " ++ e }] }
  | .ok page_texts =>
    let total_pages := page_texts.length
    let full_text := fullText page_texts
    let content_pages := calculate_content_pages page_texts
    { file_path := file_path, paper_type := paper_type,
      total_pages := total_pages, content_pages := content_pages,
      issues :=
        check_page_limits content_pages paper_type ++
        check_limitations_section full_text ++
        check_anonymization full_text ++
        check_broken_references full_text ++
        check_ethical_considerations full_text }

/-! ## Spec-side reformulations

These definitions follow the words of the specification claims (not the
source); they are compared against the source-derived definitions
above. -/

/-- The reference-like test used by the corroboration window, as the spec
phrases it: a line matches the numbered-reference or bracket-reference
pattern. -/
def refWindowLineB (l : String) : Bool :=
  numberedRefLineB (pyStrip l) || bracketRefLineB (pyStrip l)

/-- Modelled from the words of claim C2: corroboration counts matches
among the up-to-5 lines STRICTLY AFTER the candidate line and requires at
least 2 of them.  (The source instead starts the window AT the candidate
line.) -/
def corroboratedSpec (lines : List String) (idx : Nat) : Bool :=
  decide (2 ≤ ((lines.drop (idx + 1)).take 5).countP refWindowLineB)

/-- Modelled from the words of claim C3: a page is excluded iff more than
70% of its substantial lines (at least 3 words) match a
reference-citation shape, or it has at least 2 distinct
appendix-indicator matches.  (The source additionally excludes every page
with no non-blank lines.) -/
def pageExcludedSpec (page : String) : Bool :=
  let subs := (splitPageLines page).filter (fun l => decide (3 ≤ wordCount l))
  decide (7 * subs.length < 10 * subs.countP refCitationLineB) ||
    decide (2 ≤ appendixMatchCount page)

/-- The amended exclusion characterization for claim C3: as
`pageExcludedSpec`, plus the empty-page clause the source actually has. -/
def pageExcludedAmended (page : String) : Bool :=
  let subs := (splitPageLines page).filter (fun l => decide (3 ≤ wordCount l))
  (splitPageLines page).isEmpty ||
    decide (7 * subs.length < 10 * subs.countP refCitationLineB) ||
    decide (2 ≤ appendixMatchCount page)

/-- The page-limit threshold table of the spec: 4 for SHORT, 8 for
LONG. -/
def page_limit_threshold : PaperType → Nat
  | .SHORT => 4
  | .LONG => 8

/-- `paper_desc` as chosen by `_check_page_limits`. -/
def paperDesc : PaperType → String
  | .SHORT => "short paper"
  | .LONG => "long paper"

/-- The single error issue produced when the limit is exceeded. -/
def exceed_issue (n : Nat) (pt : PaperType) : Issue :=
  { issue_type := .page_limit, severity := "error",
    message := "Paper exceeds page limit for " ++ paperDesc pt,
    details := some ("Found " ++ toString n ++ " content pages, limit is " ++
      toString (page_limit_threshold pt) ++ " pages") }

/-- The single info issue produced exactly at the limit. -/
def at_limit_issue (n : Nat) (pt : PaperType) : Issue :=
  { issue_type := .page_limit, severity := "info",
    message := "Paper is at the page limit for " ++ paperDesc pt,
    details := some (toString n ++ " content pages (limit: " ++
      toString (page_limit_threshold pt) ++ ")") }

/-! ## Helper lemmas -/

theorem strData_append (s t : String) : (s ++ t).data = s.data ++ t.data := by
  cases s
  cases t
  rfl

theorem isPrefixL_self_append (b c : List Char) : isPrefixL b (b ++ c) = true := by
  induction b with
  | nil => rfl
  | cons a as ih => simp [isPrefixL, ih]

theorem containsSubL_of_prefixL (needle hay : List Char)
    (h : isPrefixL needle hay = true) : containsSubL needle hay = true := by
  cases hay with
  | nil => simpa [containsSubL] using h
  | cons c rest => simp [containsSubL, h]

theorem containsSubL_of_middle (a b c : List Char) :
    containsSubL b (a ++ (b ++ c)) = true := by
  induction a with
  | nil => exact containsSubL_of_prefixL _ _ (isPrefixL_self_append b c)
  | cons x xs ih => simp [containsSubL, ih]

/-- A string occurs as a substring of any string built around it. -/
theorem containsSubB_middle (x s y : String) : containsSubB (x ++ s ++ y) s = true := by
  unfold containsSubB
  rw [strData_append, strData_append, List.append_assoc]
  exact containsSubL_of_middle _ _ _

theorem refLikeCountLoop_eq_countP (ls : List String) :
    refLikeCountLoop ls = ls.countP refWindowLineB := by
  induction ls with
  | nil => rfl
  | cons l ls ih =>
    simp only [refLikeCountLoop, List.countP_cons, ih, refWindowLineB]
    by_cases h1 : numberedRefLineB (pyStrip l) = true
    · simp [h1]
      omega
    · by_cases h2 : bracketRefLineB (pyStrip l) = true
      · simp [h1, h2]
        omega
      · simp [h1, h2]

theorem isMidPageB_eq (lines : List String) (j : Nat) :
    isMidPageB lines j =
      (decide (10 < j) || decide (5 < substantialCount (lines.take j))) := by
  cases j with
  | zero => rfl
  | succ j =>
    have h0 : (decide (0 < j + 1)) = true := by simp
    simp [isMidPageB, h0]

theorem refStats_eq (ls : List String) :
    refStats ls =
      ((ls.filter (fun l => decide (3 ≤ wordCount l))).countP refCitationLineB,
       (ls.filter (fun l => decide (3 ≤ wordCount l))).length) := by
  induction ls with
  | nil => rfl
  | cons l ls ih =>
    by_cases h3 : wordCount l < 3
    · have hd : (decide (3 ≤ wordCount l)) = false := by
        simp
        omega
      simp [refStats, if_pos h3, List.filter_cons, hd, ih]
    · have hd : (decide (3 ≤ wordCount l)) = true := by
        simp
        omega
      by_cases hr : refCitationLineB l = true
      · simp [refStats, if_neg h3, List.filter_cons, hd, hr, ih, List.countP_cons]
      · simp [refStats, if_neg h3, List.filter_cons, hd, hr, ih, List.countP_cons]

theorem page_is_excluded_eq (page : String) (i : Nat) :
    page_is_excluded_content page i = pageExcludedAmended page := by
  unfold page_is_excluded_content pageExcludedAmended
  by_cases he : (splitPageLines page).isEmpty = true
  · simp [he]
  · have hC :
        ((splitPageLines page).filter
          (fun l => decide (3 ≤ wordCount l))).countP refCitationLineB ≤
        ((splitPageLines page).filter
          (fun l => decide (3 ≤ wordCount l))).length :=
      List.countP_le_length _
    simp only [he, Bool.false_or, if_neg (by simp [he] : ¬(splitPageLines page).isEmpty = true)]
    rw [refStats_eq]
    by_cases h1 :
        7 * ((splitPageLines page).filter (fun l => decide (3 ≤ wordCount l))).length <
        10 * ((splitPageLines page).filter
          (fun l => decide (3 ≤ wordCount l))).countP refCitationLineB
    · have h0 :
          0 < ((splitPageLines page).filter (fun l => decide (3 ≤ wordCount l))).length := by
        omega
      simp [h1, h0]
    · by_cases h2 : 2 ≤ appendixMatchCount page
      · simp [h1, h2]
      · simp [h1, h2]

theorem countP_enumFrom (f : String → Bool) (n : Nat) (pages : List String) :
    (List.enumFrom n pages).countP (fun pi => f pi.2) = pages.countP f := by
  induction pages generalizing n with
  | nil => rfl
  | cons p ps ih => simp [List.enumFrom, List.countP_cons, ih]

theorem find_main_content_end_aux_some (pages : List String) :
    ∀ k pidx mid, find_main_content_end_aux k pages = some (pidx, mid) →
      k ≤ pidx ∧ pidx - k < pages.length ∧
      ∃ page j, pages[pidx - k]? = some page ∧
        findBoundaryIdx (splitPageLines page) = some j ∧
        mid = isMidPageB (splitPageLines page) j := by
  induction pages with
  | nil =>
    intro k pidx mid h
    simp [find_main_content_end_aux] at h
  | cons page rest ih =>
    intro k pidx mid h
    cases hb : findBoundaryIdx (splitPageLines page) with
    | some j =>
      simp only [find_main_content_end_aux, hb] at h
      obtain ⟨hk, hm⟩ := Prod.mk.injEq _ _ _ _ ▸ Option.some.injEq _ _ ▸ h
      subst hk
      refine ⟨Nat.le_refl _, by simp, page, j, ?_, hb, hm.symm⟩
      simp
    | none =>
      simp only [find_main_content_end_aux, hb] at h
      obtain ⟨hk, hlt, page', j, hget, hfb, hm⟩ := ih (k + 1) pidx mid h
      refine ⟨Nat.le_of_succ_le hk, by simp; omega, page', j, ?_, hfb, hm⟩
      have hix : pidx - k = (pidx - (k + 1)) + 1 := by omega
      rw [hix]
      simpa using hget

theorem checkLimitationsAux_spec (ls : List String) :
    (checkLimitationsAux ls = [] ↔ ∃ l ∈ ls, limitationsLineHit l = true) ∧
    (checkLimitationsAux ls = [] ∨ checkLimitationsAux ls = [missing_limitations_issue]) := by
  induction ls with
  | nil =>
    refine ⟨?_, Or.inr rfl⟩
    simp [checkLimitationsAux]
  | cons l ls ih =>
    by_cases hl : limitationsLineHit l = true
    · refine ⟨?_, Or.inl (by simp [checkLimitationsAux, hl])⟩
      simp only [checkLimitationsAux, hl, if_true]
      constructor
      · intro _
        exact ⟨l, List.mem_cons_self _ _, hl⟩
      · intro _
        trivial
    · have hstep : checkLimitationsAux (l :: ls) = checkLimitationsAux ls := by
        simp [checkLimitationsAux, hl]
      refine ⟨?_, hstep ▸ ih.2⟩
      rw [hstep, ih.1]
      constructor
      · rintro ⟨x, hx, hhit⟩
        exact ⟨x, List.mem_cons_of_mem _ hx, hhit⟩
      · rintro ⟨x, hx, hhit⟩
        rcases List.mem_cons.mp hx with hx | hx
        · subst hx
          exact absurd hhit hl
        · exact ⟨x, hx, hhit⟩

theorem countP_congrL {α : Type} (l : List α) (p q : α → Bool)
    (h : ∀ x ∈ l, p x = q x) : l.countP p = l.countP q := by
  induction l with
  | nil => rfl
  | cons a as ih =>
    simp only [List.countP_cons, h a (List.mem_cons_self a as),
      ih (fun x hx => h x (List.mem_cons_of_mem a hx))]

/-! ## Claims -/

/-- C1: when some page contains an accepted section-boundary line, the
classifier labels the first accepted match mid-page iff its line index on
the page exceeds 10 or more than 5 of the preceding lines on that page
each have more than 3 words, and the content-page count is the page's
0-based index plus 1 when mid-page and the page's index otherwise. -/
theorem claim1_boundary_classification (pages : List String) (pidx : Nat) (mid : Bool)
    (h : find_main_content_end pages = some (pidx, mid)) :
    ∃ page j, pages[pidx]? = some page ∧
      findBoundaryIdx (splitPageLines page) = some j ∧
      mid = (decide (10 < j) ||
        decide (5 < substantialCount ((splitPageLines page).take j))) ∧
      calculate_content_pages pages = (if mid then pidx + 1 else pidx) := by
  have h' : find_main_content_end_aux 0 pages = some (pidx, mid) := h
  obtain ⟨-, hlt, page, j, hget, hfb, hm⟩ :=
    find_main_content_end_aux_some pages 0 pidx mid h'
  rw [Nat.sub_zero] at hget
  refine ⟨page, j, hget, hfb, ?_, ?_⟩
  · rw [hm, isMidPageB_eq]
  · cases pages with
    | nil => simp [find_main_content_end, find_main_content_end_aux] at h
    | cons a l =>
      cases mid with
      | true => simp [calculate_content_pages, h]
      | false => simp [calculate_content_pages, h]

theorem claim1_boundary_classification_witness :
    find_main_content_end ["Intro text", "References"] = some (1, false) ∧
    (∃ page j, (["Intro text", "References"] : List String)[1]? = some page ∧
      findBoundaryIdx (splitPageLines page) = some j ∧
      (false : Bool) = (decide (10 < j) ||
        decide (5 < substantialCount ((splitPageLines page).take j))) ∧
      calculate_content_pages ["Intro text", "References"] =
        (if (false : Bool) then 1 + 1 else 1)) :=
  ⟨by decide, claim1_boundary_classification ["Intro text", "References"] 1 false (by decide)⟩

/-- C2 (counterexample): a page whose first line is `1. Author` followed
by a single line `[2] Foo` IS accepted as a boundary by the source (the
corroboration window starts at the candidate line itself, which always
matches), although among the lines strictly after the candidate only one
matches — so the claim's "at least 2 among the up-to-5 lines strictly
after" condition is false. -/
theorem claim2_counterexample :
    numberedCandidateB ("1. Author") = true ∧
    sectionSearchLine ("1. Author") = true ∧
    corroboratedSpec ["1. Author", "[2] Foo"] 0 = false ∧
    looks_like_reference_section ["1. Author", "[2] Foo"] 0 = true ∧
    find_main_content_end ["1. Author\n[2] Foo"] = some (0, false) := by
  decide

/-- C2 (amended): a numbered-reference candidate is accepted as a section
boundary exactly when, among the candidate line itself and the up-to-4
lines after it (the window of up to 5 lines starting at the candidate),
at least 2 match the numbered-reference or bracket-reference pattern;
otherwise the candidate is treated as a non-match and scanning
continues. -/
theorem claim2_corroboration_amended (lines full : List String) (start idx : Nat)
    (l : String) (rest : List String) :
    (looks_like_reference_section lines start = true ↔
      2 ≤ ((lines.drop start).take 5).countP refWindowLineB) ∧
    (findBoundaryAux full (l :: rest) idx =
      if sectionSearchLine l then
        if numberedCandidateB l then
          if looks_like_reference_section full idx then some idx
          else findBoundaryAux full rest (idx + 1)
        else some idx
      else findBoundaryAux full rest (idx + 1)) := by
  constructor
  · unfold looks_like_reference_section
    rw [refLikeCountLoop_eq_countP]
    exact decide_eq_true_iff
  · rfl

/-- C3 (counterexample): the page list `["", "word word word word"]`
reaches the fallback, where the source counts the empty page as excluded
(no non-blank lines) and returns 1, while the claim's exclusion
characterization (reference-ratio or appendix indicators only) excludes
neither page and so predicts 2. -/
theorem claim3_counterexample :
    find_main_content_end ["", "word word word word"] = none ∧
    pageExcludedSpec ("") = false ∧
    pageExcludedSpec ("word word word word") = false ∧
    max 1 ((["", "word word word word"] : List String).countP
      (fun p => !(pageExcludedSpec p))) = 2 ∧
    calculate_content_pages ["", "word word word word"] = 1 := by
  decide

/-- C3 (amended): the empty list yields 0; when no boundary is accepted,
the count is the number of pages not excluded, floored at 1, where a page
is excluded iff it has no non-blank lines, or more than 70% of its
substantial lines (at least 3 words) match a reference-citation shape, or
it has at least 2 distinct appendix-indicator matches. -/
theorem claim3_fallback_amended (pages : List String) :
    calculate_content_pages [] = 0 ∧
    (∀ page i, page_is_excluded_content page i = pageExcludedAmended page) ∧
    (find_main_content_end pages = none → pages ≠ [] →
      calculate_content_pages pages =
        max 1 (pages.countP (fun p => !(pageExcludedAmended p)))) := by
  refine ⟨rfl, page_is_excluded_eq, ?_⟩
  intro hnone hne
  cases pages with
  | nil => exact absurd rfl hne
  | cons a l =>
    simp only [calculate_content_pages, hnone]
    have hcong :
        (a :: l).enum.countP (fun pi => !(page_is_excluded_content pi.2 pi.1)) =
        (a :: l).enum.countP (fun pi => !(pageExcludedAmended pi.2)) :=
      countP_congrL _ _ _ (fun pi _ => by rw [page_is_excluded_eq])
    rw [hcong]
    have henum : (a :: l).enum = List.enumFrom 0 (a :: l) := rfl
    rw [henum, countP_enumFrom (fun p => !(pageExcludedAmended p)) 0 (a :: l)]

theorem claim3_fallback_amended_witness :
    calculate_content_pages ["word word word word"] =
      max 1 ((["word word word word"] : List String).countP
        (fun p => !(pageExcludedAmended p))) :=
  (claim3_fallback_amended ["word word word word"]).2.2 (by decide) (by decide)

/-- C4: with threshold 4 for SHORT and 8 for LONG, the page-limit check
returns exactly one error issue above the threshold, exactly one info
issue at the threshold and nothing below it, and in the first two cases
the details string mentions both the content-page count and the
threshold. -/
theorem claim4_page_limit_cases (n : Nat) (pt : PaperType) :
    page_limit_threshold PaperType.SHORT = 4 ∧
    page_limit_threshold PaperType.LONG = 8 ∧
    check_page_limits n pt =
      (if page_limit_threshold pt < n then [exceed_issue n pt]
       else if n = page_limit_threshold pt then [at_limit_issue n pt]
       else []) ∧
    (exceed_issue n pt).severity = "error" ∧
    (exceed_issue n pt).issue_type = IssueType.page_limit ∧
    (at_limit_issue n pt).severity = "info" ∧
    (at_limit_issue n pt).issue_type = IssueType.page_limit ∧
    (∃ a b c, (exceed_issue n pt).details =
      some (a ++ toString n ++ b ++ toString (page_limit_threshold pt) ++ c)) ∧
    (∃ a b c, (at_limit_issue n pt).details =
      some (a ++ toString n ++ b ++ toString (page_limit_threshold pt) ++ c)) := by
  cases pt <;>
    exact ⟨rfl, rfl, rfl, rfl, rfl, rfl, rfl,
      ⟨"Found ", " content pages, limit is ", " pages", rfl⟩,
      ⟨"", " content pages (limit: ", ")", rfl⟩⟩

/-- C5: on extraction failure, `check_pdf` returns (never raises — the
embedding is a total function of the extraction outcome) a result with
zero total pages, zero content pages and a single error PageLimit issue
describing the failure. -/
theorem claim5_extraction_failure (fp : String) (pt : PaperType) (e : String) :
    check_pdf fp pt (Except.error e) =
      { file_path := fp, paper_type := pt, total_pages := 0, content_pages := 0,
        issues := [{ issue_type := IssueType.page_limit, severity := "error",
                     message := "Failed to process PDF: " ++ e }] } ∧
    (check_pdf fp pt (Except.error e)).total_pages = 0 ∧
    (check_pdf fp pt (Except.error e)).content_pages = 0 ∧
    (check_pdf fp pt (Except.error e)).issues.length = 1 :=
  ⟨rfl, rfl, rfl, rfl⟩

/-- C6: the MissingLimitations detector returns the empty list iff some
line of the text (stripped, as the source strips each line before
testing) matches the section patterns and contains the substring
"limitation" case-insensitively; otherwise it returns exactly the one
error-severity missing-limitations issue — never more than one. -/
theorem claim6_missing_limitations (text : String) :
    (check_limitations_section text = [] ↔
      ∃ l ∈ splitNl text, sectionSearchLine (pyStrip l) = true ∧
        containsSubB (lowerStr (pyStrip l)) ("limitation") = true) ∧
    (check_limitations_section text = [] ∨
      check_limitations_section text = [missing_limitations_issue]) ∧
    missing_limitations_issue.severity = "error" ∧
    missing_limitations_issue.issue_type = IssueType.missing_limitations := by
  have h := checkLimitationsAux_spec (splitNl text)
  have heq : check_limitations_section text = checkLimitationsAux (splitNl text) := rfl
  refine ⟨?_, heq ▸ h.2, rfl, rfl⟩
  rw [heq, h.1]
  constructor
  · rintro ⟨l, hmem, hhit⟩
    rw [show limitationsLineHit l =
      (sectionSearchLine (pyStrip l) &&
        containsSubB (lowerStr (pyStrip l)) ("limitation")) from rfl,
      Bool.and_eq_true] at hhit
    exact ⟨l, hmem, hhit⟩
  · rintro ⟨l, hmem, h1, h2⟩
    refine ⟨l, hmem, ?_⟩
    rw [show limitationsLineHit l =
      (sectionSearchLine (pyStrip l) &&
        containsSubB (lowerStr (pyStrip l)) ("limitation")) from rfl,
      Bool.and_eq_true]
    exact ⟨h1, h2⟩

/-- C7: the EthicalConsiderations detector returns at most one issue (its
result is empty or a single warning issue built from the first match
found, pattern order first), and that issue's details contain the
±30-character context snippet around that first match. -/
theorem claim7_ethics_at_most_one (text : String) :
    check_ethical_considerations text = [] ∨
    (∃ st en, ethicalFirstHit text = some (st, en) ∧
      check_ethical_considerations text =
        [{ issue_type := IssueType.ethical_considerations, severity := "warning",
           message := "Ethical considerations section found",
           details := some (ethDetails text st en) }] ∧
      containsSubB (ethDetails text st en) (ethSnippet text st en) = true) := by
  cases hh : ethicalFirstHit text with
  | none =>
    left
    simp [check_ethical_considerations, hh]
  | some m =>
    right
    obtain ⟨st, en⟩ := m
    refine ⟨st, en, rfl, ?_, ?_⟩
    · simp [check_ethical_considerations, hh]
    · show containsSubB
        ("Found: '" ++ pyStrip (sliceStr text st en) ++ "' in context: '..." ++
          ethSnippet text st en ++ "...'") (ethSnippet text st en) = true
      exact containsSubB_middle
        ("Found: '" ++ pyStrip (sliceStr text st en) ++ "' in context: '...")
        (ethSnippet text st en) ("...'")

/-- C8 (code evaluation): the anonymization detector reports a warning on
the all-lowercase text "some university", because `_check_anonymization`
passes `re.IGNORECASE`, defeating the capitalized `[A-Z][a-z]+` classes
of its patterns — contradicting the intended capitalized-only matching
the patterns themselves express. -/
theorem claim8_lowercase_institution_match :
    check_anonymization ("some university") =
      [{ issue_type := IssueType.anonymization, severity := "warning",
         message := "Potential anonymization issue detected",
         details :=
           some ("Found: 'some university' in context: '...some university...'") }] ∧
    (check_anonymization ("some university")).length = 1 := by
  decide

/-- C9: on the text "results in ?? and also [??]" the BrokenReferences
detector returns at least 2 warning issues — among them one reporting the
bare `??` and one whose reported match contains the bracketed form — each
with "??" in its details; the overlapping bare and bracketed matches are
all reported (3 issues in total), not deduplicated. -/
theorem claim9_broken_references_scenario :
    2 ≤ (check_broken_references ("results in ?? and also [??]")).length ∧
    (check_broken_references ("results in ?? and also [??]")).all
      (fun i => (i.severity == "warning") &&
        containsSubB (i.details.getD ("")) ("??")) = true ∧
    (check_broken_references ("results in ?? and also [??]")).any
      (fun i => containsSubB (i.details.getD ("")) ("Found: '??'")) = true ∧
    (check_broken_references ("results in ?? and also [??]")).any
      (fun i => containsSubB (i.details.getD ("")) ("Found: '[??]'")) = true ∧
    (check_broken_references ("results in ?? and also [??]")).length = 3 := by
  decide

/-- C10: the content-page count never exceeds the number of pages (and is
a natural number, hence at least 0) on every path, including the fallback
floored at 1, which only applies to non-empty lists. -/
theorem claim10_content_pages_bounded (pages : List String) :
    0 ≤ calculate_content_pages pages ∧
    calculate_content_pages pages ≤ pages.length := by
  refine ⟨Nat.zero_le _, ?_⟩
  cases pages with
  | nil => simp [calculate_content_pages]
  | cons a l =>
    cases hf : find_main_content_end (a :: l) with
    | none =>
      simp only [calculate_content_pages, hf]
      have h1 : 1 ≤ (a :: l).length := by simp
      have h2 : (a :: l).enum.countP
          (fun pi => !(page_is_excluded_content pi.2 pi.1)) ≤ (a :: l).length := by
        calc (a :: l).enum.countP (fun pi => !(page_is_excluded_content pi.2 pi.1))
            ≤ (a :: l).enum.length := List.countP_le_length _
          _ = (a :: l).length := by simp
      exact max_le h1 h2
    | some pm =>
      obtain ⟨pidx, mid⟩ := pm
      have h' : find_main_content_end_aux 0 (a :: l) = some (pidx, mid) := hf
      obtain ⟨-, hlt, -⟩ := find_main_content_end_aux_some (a :: l) 0 pidx mid h'
      rw [Nat.sub_zero] at hlt
      cases mid with
      | true =>
        simp only [calculate_content_pages, hf]
        omega
      | false =>
        simp only [calculate_content_pages, hf]
        omega

end PdfChecker
